import Mathlib

/-!
Verification of the ComfyUI load balancer (comfyui_lb).

This file gives a shallow embedding of the parts of the repository that the
frozen claims are about:

* `src/models.py`     — `BackendStatus`, `TaskStatus`, `Task`, `BackendState`;
* `src/task_queue.py` — `TaskQueue` with its three indexes (`_pending`,
  `_dispatched`, `_completed`), `add_task`, `get_pending_task`,
  `pop_pending_task`, `mark_dispatched`, `mark_completed`, `mark_failed`,
  `cancel_task`, `get_task`, and the body of `_dispatch_loop`;
* `src/main.py`       — `dispatch_task`, `on_backend_status_change` and how
  `lifespan` wires (or fails to wire) the components together;
* `src/backend_manager.py` — `check_backend_health`;
* `src/health_checker.py`  — `_do_check` (per-backend status-change handling);
* `src/api/routes.py` — `submit_prompt` (POST /prompt), `manage_queue`
  (POST /queue, delete path), `get_task`/`cancel_task`
  (GET and DELETE /lb/tasks/:task_id);
* `src/api/websocket.py` — `WebSocketManager.register_prompt`,
  `associate_client_with_backend`, and `BackendWebSocketBridge._handle_message`
  for text frames.

Python dictionaries are modelled as association lists (`dget`/`dset`/key
lists) with Python semantics: assigning to an existing key keeps its
position, assigning a new key appends at the end, `popitem(last=False)` and
`pop(next(iter(d)))` remove the first entry.  Because task objects in the
source are mutable and aliased between the three indexes, the queue state
keeps one object heap (`tasks : id -> Task`) plus the three key lists; a
field mutation on a task is a single heap update, visible through every
index that holds the id, exactly as in the source.  Wall-clock timestamps
(`created_at`, `dispatched_at`, `completed_at`, `last_check`) and the opaque
workflow payload (`prompt`) are not inspected by any modelled operation and
are omitted.  Upstream HTTP I/O is modelled by outcome parameters
(`UpstreamResult`, `ProbeResult`).
-/

set_option autoImplicit false

namespace ComfyLB

/-! ## Python dict model -/

/-- `d.get(k)`: first value bound to `k` in the association list. -/
def dget {α : Type} : List (String × α) → String → Option α
  | [], _ => none
  | (k', v) :: rest, k => if k' = k then some v else dget rest k

/-- `d[k] = v`: update in place if `k` is present (keeping its position),
otherwise append at the end — Python dict assignment semantics. -/
def dset {α : Type} : List (String × α) → String → α → List (String × α)
  | [], k, v => [(k, v)]
  | (k', v') :: rest, k, v =>
      if k' = k then (k', v) :: rest else (k', v') :: dset rest k v

/-- Key insertion for an index list: a new key is appended, an existing key
keeps its position (Python dict assignment, projected onto the key order). -/
def keyInsert (l : List String) (k : String) : List String :=
  if k ∈ l then l else l ++ [k]

/-! ## models.py -/

/-- `BackendStatus` (models.py). -/
inductive BackendStatus where
  | healthy
  | unhealthy
  | unknown
deriving DecidableEq, Repr

/-- `TaskStatus` (models.py). -/
inductive TaskStatus where
  | queued
  | dispatched
  | running
  | completed
  | failed
  | cancelled
deriving DecidableEq, Repr

/-- The contents of a task's `extra_data` dict, restricted to the one key the
balancer reads (`"number"`); other keys are never inspected. -/
structure ExtraData where
  number : Option Nat
deriving DecidableEq, Repr

/-- `Task` (models.py).  `id` is the balancer uuid, `prompt_id` the worker job
id assigned on acceptance.  The opaque `prompt` payload and the datetime
fields are not modelled (no modelled operation reads them). -/
structure Task where
  id : String
  client_id : Option String
  status : TaskStatus
  backend_name : Option String
  prompt_id : Option String
  error : Option String
  retries : Nat
  extra_data : Option ExtraData
deriving DecidableEq, Repr

/-- `BackendState` (models.py): one worker's mutable live state. -/
structure BackendState where
  name : String
  status : BackendStatus
  queue_pending : Nat
  queue_running : Nat
  consecutive_failures : Nat
  consecutive_successes : Nat
  enabled : Bool
  weight : Nat
  max_queue : Nat
deriving DecidableEq, Repr

/-- `BackendState.total_queue`. -/
def BackendState.total_queue (b : BackendState) : Nat :=
  b.queue_pending + b.queue_running

/-- `BackendState.is_available`. -/
def BackendState.is_available (b : BackendState) : Bool :=
  b.enabled && b.status = BackendStatus.healthy && b.total_queue < b.max_queue

/-- `BackendState.is_idle`. -/
def BackendState.is_idle (b : BackendState) : Bool :=
  b.is_available && b.total_queue = 0

/-! ## config.py (the fields the claims depend on) -/

/-- `QueueConfig` (config.py): `max_size` and `max_retries`
(`retry_interval` is a wall-clock duration, not modelled). -/
structure QueueConfig where
  max_size : Nat
  max_retries : Nat
deriving DecidableEq, Repr

/-- `HealthCheckConfig` (config.py): the two hysteresis thresholds
(`interval` and `timeout` are wall-clock durations, not modelled). -/
structure HealthCheckConfig where
  unhealthy_threshold : Nat
  healthy_threshold : Nat
deriving DecidableEq, Repr

/-! ## task_queue.py — state -/

/-- The `TaskQueue` state: key order of the three indexes `_pending`
(OrderedDict), `_dispatched` (dict) and `_completed` (dict), the shared task
object heap, `_task_counter`, and the `_dispatch_event` flag. -/
structure TaskQueue where
  pending : List String
  dispatched : List String
  completed : List String
  tasks : List (String × Task)
  task_counter : Nat
  dispatch_event : Bool
deriving DecidableEq, Repr

/-- The freshly constructed queue (`TaskQueue.__init__`). -/
def emptyTaskQueue : TaskQueue :=
  { pending := [], dispatched := [], completed := [], tasks := [],
    task_counter := 0, dispatch_event := false }

/-- The status recorded for a task id in the object heap. -/
def statusOf (q : TaskQueue) (task_id : String) : Option TaskStatus :=
  (dget q.tasks task_id).map Task.status

/-- Heap consistency: every heap entry is keyed by its task's own `id`
(Python guarantees this because the dict keys are always `task.id`). -/
def heapConsistent (q : TaskQueue) : Prop :=
  ∀ p ∈ q.tasks, (p.2).id = p.1

instance (q : TaskQueue) : Decidable (heapConsistent q) := by
  unfold heapConsistent
  infer_instance

/-! ## task_queue.py — operations -/

/-- `TaskQueue.add_task` (task_queue.py:53-71).  Rejects with `ValueError`
("队列已满") when the pending index is already at `queue.max_size`; otherwise
increments the counter, creates the task (with `extra_data` defaulted to the
dict holding the counter when the caller's value is falsy) and appends it to
`_pending`.  The fresh uuid4 id is supplied by the caller of the model. -/
def add_task (cfg : QueueConfig) (q : TaskQueue) (freshId : String)
    (client_id : Option String) (extra_data : Option ExtraData) :
    Except String (TaskQueue × Task) :=
  if q.pending.length ≥ cfg.max_size then
    .error "队列已满"
  else
    let counter := q.task_counter + 1
    let task : Task :=
      { id := freshId, client_id := client_id, status := .queued,
        backend_name := none, prompt_id := none, error := none, retries := 0,
        extra_data := some (extra_data.getD { number := some counter }) }
    .ok ({ q with task_counter := counter,
                  pending := keyInsert q.pending freshId,
                  tasks := dset q.tasks freshId task,
                  dispatch_event := true }, task)

/-- `TaskQueue.get_pending_task` (task_queue.py:73-78): peek the first
pending task without removing it. -/
def get_pending_task (q : TaskQueue) : Option Task :=
  q.pending.head?.bind (dget q.tasks)

/-- `TaskQueue.pop_pending_task` (task_queue.py:80-86):
`_pending.popitem(last=False)`. -/
def pop_pending_task (q : TaskQueue) : Option Task × TaskQueue :=
  match q.pending with
  | [] => (none, q)
  | k :: rest => (dget q.tasks k, { q with pending := rest })

/-- `TaskQueue.mark_dispatched` (task_queue.py:88-96): set the task's status,
backend binding and worker prompt id, and enter it into `_dispatched`.
(`main.dispatch_task` passes `result.get("prompt_id")`, which may be absent,
hence `Option String`.) -/
def mark_dispatched (q : TaskQueue) (task : Task) (backend_name : String)
    (prompt_id : Option String) : TaskQueue :=
  let t : Task := { task with status := .dispatched,
                              backend_name := some backend_name,
                              prompt_id := prompt_id }
  { q with tasks := dset q.tasks task.id t,
           dispatched := keyInsert q.dispatched task.id }

/-- The `while len(self._completed) > 1000` eviction loop of
`TaskQueue.mark_completed` (task_queue.py:108-110): pop the first (oldest)
key while the terminal index exceeds 1000 entries. -/
def evict_completed : List String → List String
  | [] => []
  | k :: rest =>
      if (k :: rest).length > 1000 then evict_completed rest else k :: rest

/-- `TaskQueue.mark_completed` (task_queue.py:98-112): pop from `_dispatched`;
if present, set COMPLETED/FAILED and the error, record it in `_completed`,
then evict oldest entries down to the 1000 cap. -/
def mark_completed (q : TaskQueue) (task_id : String) (success : Bool)
    (error : Option String) : TaskQueue :=
  if task_id ∈ q.dispatched then
    match dget q.tasks task_id with
    | some task =>
        let t : Task := { task with
          status := if success then .completed else .failed, error := error }
        { q with dispatched := q.dispatched.erase task_id,
                 tasks := dset q.tasks task_id t,
                 completed := evict_completed (keyInsert q.completed task_id) }
    | none => { q with dispatched := q.dispatched.erase task_id }
  else q

/-- `TaskQueue.mark_failed` (task_queue.py:114-132): increment `retries` and
record the error; if `retries < max_retries` reset the task to QUEUED with
bindings cleared and re-enter it into `_pending` (an existing key keeps its
position), otherwise set FAILED and record it in `_completed` (note: without
any eviction). -/
def mark_failed (cfg : QueueConfig) (q : TaskQueue) (task : Task)
    (error : String) : TaskQueue :=
  let t : Task := { task with retries := task.retries + 1, error := some error }
  if t.retries < cfg.max_retries then
    let t' : Task := { t with status := .queued, backend_name := none,
                              prompt_id := none }
    { q with tasks := dset q.tasks task.id t',
             pending := keyInsert q.pending task.id }
  else
    let t' : Task := { t with status := .failed }
    { q with tasks := dset q.tasks task.id t',
             completed := keyInsert q.completed task.id }

/-- `TaskQueue.cancel_task` (task_queue.py:134-153).  A pending task is moved
to `_completed` with status CANCELLED; a dispatched task only has its status
set to CANCELLED and stays in `_dispatched` (the source comments that the
backend-side cancel must be handled by the caller); any other id returns
`False` with the state untouched. -/
def cancel_task (q : TaskQueue) (task_id : String) : Bool × TaskQueue :=
  if task_id ∈ q.pending then
    match dget q.tasks task_id with
    | some task =>
        let t : Task := { task with status := .cancelled }
        (true, { q with pending := q.pending.erase task_id,
                        tasks := dset q.tasks task_id t,
                        completed := keyInsert q.completed task_id })
    | none => (true, { q with pending := q.pending.erase task_id })
  else if task_id ∈ q.dispatched then
    match dget q.tasks task_id with
    | some task =>
        (true, { q with tasks := dset q.tasks task_id
                          { task with status := .cancelled } })
    | none => (true, q)
  else (false, q)

/-- `TaskQueue.get_task` (task_queue.py:155-163): look the id up in
`_pending`, then `_dispatched`, then `_completed`. -/
def get_task (q : TaskQueue) (task_id : String) : Option Task :=
  if task_id ∈ q.pending then dget q.tasks task_id
  else if task_id ∈ q.dispatched then dget q.tasks task_id
  else if task_id ∈ q.completed then dget q.tasks task_id
  else none

/-- `TaskQueue.trigger_dispatch` (task_queue.py:232-234). -/
def trigger_dispatch (q : TaskQueue) : TaskQueue :=
  { q with dispatch_event := true }

/-! ## main.py — dispatch_task and the dispatch loop body -/

/-- Outcome of one dispatch attempt as seen by `main.dispatch_task`
(main.py:36-76): the scheduler found no backend, or
`backend_manager.submit_prompt` returned 2xx with `result.get("prompt_id")`,
or it raised (connection error / `raise_for_status`). -/
inductive UpstreamResult where
  | noBackend
  | accepted (backend : String) (promptId : Option String)
  | failed (backend : String) (error : String)
deriving DecidableEq, Repr

/-- `main.dispatch_task` restricted to its effect on the task queue: on no
backend return `False`; on acceptance `mark_dispatched` and return `True`;
on an exception `mark_failed` and return `True` ("the task was handled").
(The WebSocket-manager registration it also performs is modelled separately
by `register_prompt`.) -/
def dispatch_task (cfg : QueueConfig) (q : TaskQueue) (task : Task)
    (r : UpstreamResult) : Bool × TaskQueue :=
  match r with
  | .noBackend => (false, q)
  | .accepted b pid => (true, mark_dispatched q task b pid)
  | .failed _ e => (true, mark_failed cfg q task e)

/-- One iteration of the inner drain loop of `TaskQueue._dispatch_loop`
(task_queue.py:210-224): peek the first pending task, run the dispatch
callback, and on success pop the task's id from `_pending`. -/
def dispatch_step (cfg : QueueConfig) (q : TaskQueue) (r : UpstreamResult) :
    TaskQueue :=
  match get_pending_task q with
  | none => q
  | some task =>
      let sr := dispatch_task cfg q task r
      if sr.1 then { sr.2 with pending := sr.2.pending.erase task.id } else sr.2

/-! ## api/routes.py — the routes the claims are about -/

/-- Body of a POST /prompt request: the opaque workflow (absent or falsy
means rejection with 400), an optional client id and optional extra data. -/
structure PromptBody where
  prompt : Option Nat
  client_id : Option String
  extra_data : Option ExtraData
deriving DecidableEq, Repr

/-- `submit_prompt` (POST /prompt, routes.py:29-59): missing `prompt` is 400;
`add_task`'s `ValueError` (queue full) is mapped to HTTP 503; otherwise the
response carries `prompt_id = task.id` and
`number = task.extra_data.get("number", 0)`. -/
def submit_prompt (cfg : QueueConfig) (q : TaskQueue) (freshId : String)
    (body : PromptBody) : Except Nat (TaskQueue × String × Nat) :=
  match body.prompt with
  | none => .error 400
  | some _ =>
      match add_task cfg q freshId body.client_id body.extra_data with
      | .error _ => .error 503
      | .ok (q', task) =>
          .ok (q', task.id, (task.extra_data.map
            (fun e => e.number.getD 0)).getD 0)

/-- `get_task` (GET /lb/tasks/:task_id, routes.py:412-419): 404 when the
queue does not know the id, else the task. -/
def get_lb_task (q : TaskQueue) (task_id : String) : Except Nat Task :=
  match get_task q task_id with
  | none => .error 404
  | some t => .ok t

/-- `cancel_task` (DELETE /lb/tasks/:task_id, routes.py:422-429).  The
handler calls only `TaskQueue.cancel_task` and maps `False` to 404; its body
contains no call to `backend_manager.cancel_prompt`, so the list of upstream
cancel requests it issues (second component, as (backend, prompt_id) pairs)
is empty. -/
def delete_lb_task (q : TaskQueue) (task_id : String) :
    Except Nat TaskQueue × List (String × String) :=
  let r := cancel_task q task_id
  ((if r.1 then .ok r.2 else .error 404), [])

/-- Processing of one id of the `delete` list of `manage_queue`
(POST /queue, routes.py:107-119): look the task up, cancel it locally, and
if it has a backend binding and worker prompt id, issue
`backend_manager.cancel_prompt(backend_name, prompt_id)` upstream (returned
as the list of issued upstream cancels). -/
def manage_queue_delete_one (q : TaskQueue) (task_id : String) :
    TaskQueue × List (String × String) :=
  match get_task q task_id with
  | none => (q, [])
  | some task =>
      let q' := (cancel_task q task_id).2
      match task.backend_name, task.prompt_id with
      | some b, some pid => (q', [(b, pid)])
      | _, _ => (q', [])

/-! ## Operation language for queue invariants

A run is a list of the atomic queue mutations the API and the dispatch loop
perform; each constructor is one critical section of the source. -/

/-- One atomic operation on the task queue. -/
inductive QOp where
  | enqueue (freshId : String) (client_id : Option String)
      (extra : Option ExtraData)
  | dispatch (r : UpstreamResult)
  | complete (task_id : String) (success : Bool) (error : Option String)
  | cancel (task_id : String)
deriving DecidableEq, Repr

/-- Apply one operation (a failed `add_task` leaves the queue unchanged, as
the raising route handler does). -/
def applyOp (cfg : QueueConfig) (q : TaskQueue) : QOp → TaskQueue
  | .enqueue i c x =>
      match add_task cfg q i c x with
      | .ok (q', _) => q'
      | .error _ => q
  | .dispatch r => dispatch_step cfg q r
  | .complete i s e => mark_completed q i s e
  | .cancel i => (cancel_task q i).2

/-- Run a list of operations from a starting state. -/
def runOps (cfg : QueueConfig) (q : TaskQueue) : List QOp → TaskQueue
  | [] => q
  | op :: rest => runOps cfg (applyOp cfg q op) rest

/-- The ids enqueued by a list of operations, in order. -/
def enqIds : List QOp → List String
  | [] => []
  | QOp.enqueue i _ _ :: rest => i :: enqIds rest
  | _ :: rest => enqIds rest

/-- Freshness of an operation w.r.t. a state: an enqueued id is a fresh
uuid4, i.e. not an id the queue has ever stored. -/
def opFresh (q : TaskQueue) : QOp → Prop
  | .enqueue i _ _ => dget q.tasks i = none
  | _ => True

instance (q : TaskQueue) (op : QOp) : Decidable (opFresh q op) := by
  unfold opFresh
  cases op <;> infer_instance

/-! ## backend_manager.py and health_checker.py -/

/-- Outcome of one probe of a worker's `/queue` endpoint as seen by
`BackendManager.check_backend_health`: a parsed 2xx body with its
`queue_running` and `queue_pending` arrays (entries opaque), or any
exception (non-2xx, timeout, connection error). -/
inductive ProbeResult where
  | success (queue_running : List Unit) (queue_pending : List Unit)
  | failure
deriving DecidableEq, Repr

/-- `BackendManager.check_backend_health` (backend_manager.py:87-130): on
success replace the load counters with the probed list lengths, increment
`consecutive_successes`, reset `consecutive_failures`, and become HEALTHY
once `consecutive_successes ≥ healthy_threshold`; on failure increment
`consecutive_failures`, reset `consecutive_successes`, and become UNHEALTHY
once `consecutive_failures ≥ unhealthy_threshold`. -/
def check_backend_health (cfg : HealthCheckConfig) (b : BackendState) :
    ProbeResult → BackendState
  | .success qr qp =>
      let b' := { b with queue_running := qr.length,
                         queue_pending := qp.length,
                         consecutive_successes := b.consecutive_successes + 1,
                         consecutive_failures := 0 }
      if b'.consecutive_successes ≥ cfg.healthy_threshold then
        { b' with status := .healthy }
      else b'
  | .failure =>
      let b' := { b with consecutive_failures := b.consecutive_failures + 1,
                         consecutive_successes := 0 }
      if b'.consecutive_failures ≥ cfg.unhealthy_threshold then
        { b' with status := .unhealthy }
      else b'

/-- `n` consecutive probe failures. -/
def probeFailures (cfg : HealthCheckConfig) (b : BackendState) : Nat → BackendState
  | 0 => b
  | n + 1 => check_backend_health cfg (probeFailures cfg b n) .failure

/-- The part of a `HealthChecker` that matters to dispatch waking: the
registered status-change callback (`_on_status_change`), `None` until
`set_status_change_callback` is called. -/
structure HealthChecker where
  on_status_change : Option (String → Bool → TaskQueue → TaskQueue)

/-- `HealthChecker.set_status_change_callback` (health_checker.py:25-27). -/
def set_status_change_callback (hc : HealthChecker)
    (cb : String → Bool → TaskQueue → TaskQueue) : HealthChecker :=
  { hc with on_status_change := some cb }

/-- `main.on_backend_status_change` (main.py:79-84): when a backend becomes
healthy, trigger the dispatch loop. -/
def on_backend_status_change (_name : String) (is_healthy : Bool)
    (q : TaskQueue) : TaskQueue :=
  if is_healthy then trigger_dispatch q else q

/-- The `HealthChecker` as wired by `main.lifespan` (main.py:113-143): the
checker is constructed and started, but `set_status_change_callback` is
never invoked anywhere in the repository, so `_on_status_change` keeps its
constructor value `None`. -/
def lifespanHealthChecker : HealthChecker :=
  { on_status_change := none }

/-- The per-backend slice of `HealthChecker._do_check`
(health_checker.py:58-104): remember the old status, probe, and if the
status changed invoke the registered callback (if any) with
`backend.status.value == "healthy"`.  Returns the probed backend state and
the (possibly woken) task queue. -/
def do_check_one (hc : HealthChecker) (cfg : HealthCheckConfig)
    (b : BackendState) (r : ProbeResult) (q : TaskQueue) :
    BackendState × TaskQueue :=
  let old := b.status
  let b' := check_backend_health cfg b r
  if old ≠ b'.status then
    match hc.on_status_change with
    | some cb => (b', cb b'.name (b'.status = .healthy) q)
    | none => (b', q)
  else (b', q)

/-! ## api/websocket.py — WebSocketManager and the backend bridge -/

/-- The routing state of `WebSocketManager`: connected downstream client
ids, the per-client set of observed backends (`_client_backends`), and the
two prompt-id maps filled by `register_prompt`. -/
structure WSManager where
  clients : List String
  client_backends : List (String × List String)
  prompt_clients : List (String × String)
  prompt_lb_ids : List (String × String)
deriving DecidableEq, Repr

/-- `WebSocketManager.register_prompt` (websocket.py:74-79): record both the
backend-prompt-id → client-id and backend-prompt-id → lb-task-id bindings. -/
def register_prompt (m : WSManager) (backend_prompt_id client_id lb_task_id :
    String) : WSManager :=
  { m with prompt_clients := dset m.prompt_clients backend_prompt_id client_id,
           prompt_lb_ids := dset m.prompt_lb_ids backend_prompt_id lb_task_id }

/-- `WebSocketManager.associate_client_with_backend` (websocket.py:66-72). -/
def associate_client_with_backend (m : WSManager) (client_id backend_name :
    String) : WSManager :=
  let old := (dget m.client_backends client_id).getD []
  let upd := if backend_name ∈ old then old else old ++ [backend_name]
  { m with client_backends := dset m.client_backends client_id upd }

/-- `BackendWebSocketBridge.bridge_id`: the stable balancer-owned session
identifier used towards the worker (websocket.py:156). -/
def bridge_id (backend_name : String) : String :=
  "LB_BRIDGE_" ++ backend_name

/-- A parsed worker text frame as `_handle_message` sees it: the `type`
field, the nested `data` dict (with the two fields the bridge rewrites plus
the untouched remainder), the top-level `prompt_id`/`sid` fallbacks, and the
`_backend` tag the bridge adds.  An absent `data` key behaves as the empty
dict (`data.get("data", {})`), so it is represented by a `FrameData` with no
fields present. -/
structure FrameData where
  prompt_id : Option String
  sid : Option String
  rest : List (String × String)
deriving DecidableEq, Repr

/-- See `FrameData`. -/
structure BackendFrame where
  mtype : Option String
  d : FrameData
  top_prompt_id : Option String
  top_sid : Option String
  backend_tag : Option String
deriving DecidableEq, Repr

/-- Where `_handle_message` sends a (possibly rewritten) text frame: to one
resolved downstream client (`manager.send_to_client`), or to the clients
associated with this backend (`manager.broadcast_to_backend_users`). -/
inductive RouteAction where
  | sendTo (client_id : String) (frame : BackendFrame)
  | broadcastAssoc (frame : BackendFrame)
deriving DecidableEq, Repr

/-- `BackendWebSocketBridge._handle_message` (websocket.py:208-266) for a
parsed text frame whose `data` field is a dict: tag the frame with
`_backend`; resolve the target client by registered `prompt_id` first, then
by the frame's `sid`; if a target other than the bridge's own id was found,
rewrite `prompt_id` to the balancer task id (nested field first, top-level
as fallback), rewrite `sid` to the target client id likewise, send the frame
to the target and record the (client, backend) association; otherwise fall
back to the backend-association broadcast. -/
def handle_text_message (backend_name : String) (m : WSManager)
    (f0 : BackendFrame) : RouteAction × WSManager :=
  let f1 : BackendFrame := { f0 with backend_tag := some backend_name }
  let prompt_id := f1.d.prompt_id
  let byPrompt : Option String :=
    match prompt_id with
    | some pid => dget m.prompt_clients pid
    | none => none
  let target : Option String :=
    match byPrompt with
    | some t => some t
    | none => f1.d.sid
  match target with
  | some t =>
      if t ≠ bridge_id backend_name then
        let lb : Option String :=
          match prompt_id with
          | some pid => dget m.prompt_lb_ids pid
          | none => none
        let f2 : BackendFrame :=
          match lb with
          | some x =>
              if f1.d.prompt_id.isSome then
                { f1 with d := { f1.d with prompt_id := some x } }
              else if f1.top_prompt_id.isSome then
                { f1 with top_prompt_id := some x }
              else f1
          | none => f1
        let f3 : BackendFrame :=
          if f2.d.sid.isSome then { f2 with d := { f2.d with sid := some t } }
          else if f2.top_sid.isSome then { f2 with top_sid := some t }
          else f2
        (.sendTo t f3, associate_client_with_backend m t backend_name)
      else
        (.broadcastAssoc f1, m)
  | none => (.broadcastAssoc f1, m)

/-! ## Shared concrete inputs and helper lemmas -/

/-- The default queue configuration (config.py: `max_size = 1000`,
`max_retries = 3`). -/
def defaultQueueConfig : QueueConfig :=
  { max_size := 1000, max_retries := 3 }

/-- The default health-check thresholds (config.py:
`unhealthy_threshold = 3`, `healthy_threshold = 1`). -/
def defaultHealthConfig : HealthCheckConfig :=
  { unhealthy_threshold := 3, healthy_threshold := 1 }

/-- A worker in its initial state, as registered from config
(`BackendManager.register_backend`). -/
def freshBackend : BackendState :=
  { name := "w1", status := .unknown, queue_pending := 0, queue_running := 0,
    consecutive_failures := 0, consecutive_successes := 0, enabled := true,
    weight := 1, max_queue := 10 }

/-- The reason an id can leave `_pending` in one atomic operation: it was
cancelled (now CANCELLED), or it was the head job of a dispatch-loop
iteration — successfully dispatched (now DISPATCHED), or failed upstream
(now QUEUED awaiting a retry that never comes, or terminal FAILED).
Enqueue and completion never remove a pending id. -/
def pendingRemovalReason (cfg : QueueConfig) (q : TaskQueue) (op : QOp)
    (id : String) : Prop :=
  match op with
  | .cancel i =>
      i = id ∧ statusOf (applyOp cfg q op) id = some .cancelled
  | .dispatch r =>
      q.pending.head? = some id ∧
      (match r with
       | .noBackend => False
       | .accepted _ _ => statusOf (applyOp cfg q op) id = some .dispatched
       | .failed _ _ =>
           statusOf (applyOp cfg q op) id = some .queued ∨
           statusOf (applyOp cfg q op) id = some .failed)
  | _ => False

/-- 1000 distinct completed task ids, filling the terminal index exactly to
the cap (reachable: 1000 jobs enqueued, dispatched and completed leave
`_completed` at exactly 1000 entries, since `mark_completed` evicts only
above 1000). -/
def thousandIds : List String :=
  (List.range 1000).map (fun n => "t" ++ toString n)

/-- A queue whose terminal index is exactly at the 1000 cap, with one more
task "p" still pending. -/
def cappedQueue : TaskQueue :=
  { pending := ["p"], dispatched := [], completed := thousandIds,
    tasks := [("p",
      { id := "p", client_id := none, status := .queued, backend_name := none,
        prompt_id := none, error := none, retries := 0,
        extra_data := some { number := some 1001 } })],
    task_counter := 1001, dispatch_event := false }

/-- The manager state of spec scenario 5: client "c1" submitted balancer job
"X", accepted by worker "w1" as workerJobId "Y" (`register_prompt "Y" "c1"
"X"` performed by `main.dispatch_task`). -/
def scenarioManager : WSManager :=
  register_prompt
    { clients := ["c1"], client_backends := [], prompt_clients := [],
      prompt_lb_ids := [] }
    "Y" "c1" "X"

/-- The worker progress frame of spec scenario 5. -/
def scenarioFrame : BackendFrame :=
  { mtype := some "progress",
    d := { prompt_id := some "Y", sid := some "LB_BRIDGE_w1",
           rest := [("value", "3"), ("max", "10")] },
    top_prompt_id := none, top_sid := none, backend_tag := none }

/-! ## Generic lemmas about the embedding -/

set_option maxRecDepth 100000

theorem dget_mem {α : Type} {d : List (String × α)} {k : String} {v : α}
    (h : dget d k = some v) : (k, v) ∈ d := by
  induction d with
  | nil => simp [dget] at h
  | cons p rest ih =>
    obtain ⟨k', v'⟩ := p
    by_cases hk : k' = k
    · subst hk
      simp [dget] at h
      simp [h]
    · simp [dget, hk] at h
      exact List.mem_cons_of_mem _ (ih h)

theorem dget_dset_ne {α : Type} {d : List (String × α)} {k k' : String} {v : α}
    (h : k ≠ k') : dget (dset d k v) k' = dget d k' := by
  induction d with
  | nil => simp [dget, dset, h]
  | cons p rest ih =>
    obtain ⟨k₀, v₀⟩ := p
    by_cases hk : k₀ = k
    · subst hk
      simp [dset, dget, h]
    · simp [dset, dget, hk, ih]

theorem dget_dset_self {α : Type} {d : List (String × α)} {k : String} {v : α} :
    dget (dset d k v) k = some v := by
  induction d with
  | nil => simp [dget, dset]
  | cons p rest ih =>
    obtain ⟨k₀, v₀⟩ := p
    by_cases hk : k₀ = k
    · subst hk
      simp [dset, dget]
    · simp [dset, dget, hk, ih]

theorem mem_keyInsert_of_mem {l : List String} {k k' : String} (h : k' ∈ l) :
    k' ∈ keyInsert l k := by
  unfold keyInsert
  split
  · exact h
  · exact List.mem_append_left _ h

theorem keyInsert_erase_sublist (l : List String) (k : String) :
    List.Sublist ((keyInsert l k).erase k) l := by
  unfold keyInsert
  split
  · exact List.erase_sublist k l
  · next hk =>
    rw [List.erase_append_right _ (by simpa using hk)]
    simp

theorem heapConsistent.id_eq {q : TaskQueue} {k : String} {t : Task}
    (hq : heapConsistent q) (h : dget q.tasks k = some t) : t.id = k :=
  hq (k, t) (dget_mem h)


theorem evict_completed_length_le (l : List String) :
    (evict_completed l).length ≤ 1000 := by
  induction l with
  | nil => simp [evict_completed]
  | cons k rest ih =>
    unfold evict_completed
    split
    · exact ih
    · next h => omega

theorem evict_completed_eq_drop (l : List String) :
    ∃ k, evict_completed l = l.drop k := by
  induction l with
  | nil => exact ⟨0, rfl⟩
  | cons a rest ih =>
    unfold evict_completed
    split
    · obtain ⟨k, hk⟩ := ih
      exact ⟨k + 1, hk⟩
    · exact ⟨0, rfl⟩

theorem check_failure_consecutive (cfg : HealthCheckConfig)
    (b : BackendState) :
    (check_backend_health cfg b .failure).consecutive_failures =
      b.consecutive_failures + 1 := by
  simp only [check_backend_health]
  split <;> rfl

theorem check_failure_status (cfg : HealthCheckConfig) (b : BackendState)
    (h : cfg.unhealthy_threshold ≤ b.consecutive_failures + 1) :
    (check_backend_health cfg b .failure).status = .unhealthy := by
  simp only [check_backend_health]
  split
  · rfl
  · next hcond =>
    exact absurd h hcond

theorem probeFailures_consecutive (cfg : HealthCheckConfig) (b : BackendState) :
    ∀ n, (probeFailures cfg b n).consecutive_failures =
      b.consecutive_failures + n := by
  intro n
  induction n with
  | zero => rfl
  | succ k ih =>
    show (check_backend_health cfg (probeFailures cfg b k)
      .failure).consecutive_failures = _
    rw [check_failure_consecutive, ih]
    omega

/-! ## C1 — dispatch-failure retry path -/

/-- C1: "For every job whose dispatch attempt fails, the job's retry count is
incremented and: if retries < queue.maxRetries the job returns to the pending
queue with status QUEUED and its backend binding and workerJobId cleared, so a
later dispatch cycle dispatches it again; otherwise the job transitions to
terminal FAILED."  This is the intent of `TaskQueue.mark_failed` (its retry
branch resets the task to QUEUED and re-enters it into `_pending`, logging
"任务重试"), but the dispatch-loop body then pops the task's id from
`_pending` because `dispatch_task` returned `True` on the failure path, so
the retried job ends up in no index at all with status QUEUED: it is never
dispatched again, never surfaced as failed, and `get_task` no longer finds
it.  Evaluated here at the failing input: fresh queue, one enqueued job,
one dispatch attempt whose upstream submit raises, `max_retries = 3`. -/
theorem dispatch_failure_drops_retried_job :
    (statusOf (runOps defaultQueueConfig emptyTaskQueue
        [.enqueue "j1" (some "c1") none, .dispatch (.failed "w1" "boom")])
      "j1" = some .queued) ∧
    ((dget (runOps defaultQueueConfig emptyTaskQueue
        [.enqueue "j1" (some "c1") none, .dispatch (.failed "w1" "boom")]).tasks
      "j1").map Task.retries = some 1) ∧
    ("j1" ∉ (runOps defaultQueueConfig emptyTaskQueue
        [.enqueue "j1" (some "c1") none, .dispatch (.failed "w1" "boom")]).pending) ∧
    ("j1" ∉ (runOps defaultQueueConfig emptyTaskQueue
        [.enqueue "j1" (some "c1") none, .dispatch (.failed "w1" "boom")]).dispatched) ∧
    ("j1" ∉ (runOps defaultQueueConfig emptyTaskQueue
        [.enqueue "j1" (some "c1") none, .dispatch (.failed "w1" "boom")]).completed) ∧
    (get_task (runOps defaultQueueConfig emptyTaskQueue
        [.enqueue "j1" (some "c1") none, .dispatch (.failed "w1" "boom")])
      "j1" = none) := by
  decide

/-! ## C2 — cancellation of a dispatched job via DELETE /lb/tasks -/

/-- C2: "Cancelling a job in DISPATCHED or RUNNING state (in particular via
DELETE /lb/tasks/:id) transitions the local job state to CANCELLED
immediately regardless of the upstream outcome, and additionally issues
exactly one upstream cancel request addressed to the bound worker's
workerJobId."  The local half is true, but the DELETE /lb/tasks handler
(routes.py:422-429) calls only `TaskQueue.cancel_task` and never
`backend_manager.cancel_prompt`, so it issues zero upstream cancel requests;
the upstream cancel exists only in the POST /queue delete path
(routes.py:107-119), modelled by `manage_queue_delete_one`.  Evaluated at
the failing input: task "X" dispatched to worker "w1" with workerJobId "Y". -/
theorem delete_route_issues_no_upstream_cancel :
    (statusOf (runOps defaultQueueConfig emptyTaskQueue
        [.enqueue "X" (some "c1") none, .dispatch (.accepted "w1" (some "Y"))])
      "X" = some .dispatched) ∧
    ((cancel_task (runOps defaultQueueConfig emptyTaskQueue
        [.enqueue "X" (some "c1") none, .dispatch (.accepted "w1" (some "Y"))])
      "X").1 = true) ∧
    (statusOf (cancel_task (runOps defaultQueueConfig emptyTaskQueue
        [.enqueue "X" (some "c1") none, .dispatch (.accepted "w1" (some "Y"))])
      "X").2 "X" = some .cancelled) ∧
    ((delete_lb_task (runOps defaultQueueConfig emptyTaskQueue
        [.enqueue "X" (some "c1") none, .dispatch (.accepted "w1" (some "Y"))])
      "X").2 = []) ∧
    (manage_queue_delete_one (runOps defaultQueueConfig emptyTaskQueue
        [.enqueue "X" (some "c1") none, .dispatch (.accepted "w1" (some "Y"))])
      "X" =
      ((cancel_task (runOps defaultQueueConfig emptyTaskQueue
          [.enqueue "X" (some "c1") none, .dispatch (.accepted "w1" (some "Y"))])
        "X").2, [("w1", "Y")])) := by
  decide

/-! ## C4 — dispatch wake on health recovery -/

/-- C4: "Whenever a probe cycle changes a worker's health class from
non-HEALTHY to HEALTHY, a dispatch-wake signal reaches the dispatcher."
`main.on_backend_status_change` would do exactly this, and
`HealthChecker.set_status_change_callback` exists to register it, but
`main.lifespan` (and every other piece of the repository) never calls
`set_status_change_callback`, so `_on_status_change` stays `None` and the
dispatch event is not set on the transition.  Evaluated at the failing
input: a fresh UNKNOWN worker whose probe succeeds under
`healthy_threshold = 1` (an UNKNOWN → HEALTHY transition); the last
conjunct shows that the intended wiring would have set the event. -/
theorem health_recovery_does_not_wake_dispatcher :
    (freshBackend.status ≠ .healthy) ∧
    ((check_backend_health defaultHealthConfig freshBackend
        (.success [] [])).status = .healthy) ∧
    (emptyTaskQueue.dispatch_event = false) ∧
    ((do_check_one lifespanHealthChecker defaultHealthConfig freshBackend
        (.success [] []) emptyTaskQueue).2.dispatch_event = false) ∧
    ((do_check_one
        (set_status_change_callback lifespanHealthChecker
          on_backend_status_change)
        defaultHealthConfig freshBackend (.success [] [])
        emptyTaskQueue).2.dispatch_event = true) := by
  refine ⟨by decide, by decide, rfl, by decide, ?_⟩
  rfl

/-! ## C5 — FIFO pending order -/

/-- C5 counterexample: the claim's clause "removal from pending occurs only
on transition out of QUEUED" is false.  A dispatch-loop iteration whose
upstream submit raises removes the job from `_pending` (the loop pops it
because `dispatch_task` returned `True`) even though `mark_failed` has just
reset it to QUEUED for retry: after the step the job is out of pending and
still QUEUED. -/
theorem queued_job_removed_from_pending :
    ("j2" ∈ (runOps defaultQueueConfig emptyTaskQueue
        [.enqueue "j2" none none]).pending) ∧
    (statusOf (runOps defaultQueueConfig emptyTaskQueue
        [.enqueue "j2" none none]) "j2" = some .queued) ∧
    ("j2" ∉ (applyOp defaultQueueConfig
        (runOps defaultQueueConfig emptyTaskQueue [.enqueue "j2" none none])
        (.dispatch (.failed "w1" "err"))).pending) ∧
    (statusOf (applyOp defaultQueueConfig
        (runOps defaultQueueConfig emptyTaskQueue [.enqueue "j2" none none])
        (.dispatch (.failed "w1" "err"))) "j2" = some .queued) := by
  decide

theorem mark_completed_pending (q : TaskQueue) (id : String) (s : Bool)
    (e : Option String) : (mark_completed q id s e).pending = q.pending := by
  unfold mark_completed
  split
  · split <;> rfl
  · rfl

theorem mark_dispatched_pending (q : TaskQueue) (task : Task)
    (b : String) (pid : Option String) :
    (mark_dispatched q task b pid).pending = q.pending := rfl

theorem eq_of_not_mem_erase {l : List String} {a b : String}
    (ha : a ∈ l) (h : a ∉ l.erase b) : a = b := by
  by_contra hne
  exact h ((List.mem_erase_of_ne hne).mpr ha)

/-- The pending index of the queue after one operation is a sublist of the
old pending index extended by the id the operation may enqueue. -/
theorem pending_applyOp_sublist (cfg : QueueConfig) (q : TaskQueue)
    (op : QOp) :
    List.Sublist (applyOp cfg q op).pending (q.pending ++ enqIds [op]) := by
  cases op with
  | enqueue i c x =>
      show List.Sublist _ (q.pending ++ [i])
      simp only [applyOp]
      cases hadd : add_task cfg q i c x with
      | error msg => exact List.sublist_append_left _ _
      | ok r =>
          unfold add_task at hadd
          split at hadd
          · exact absurd hadd (by simp)
          · obtain ⟨q', t⟩ := r
            simp only [Except.ok.injEq, Prod.mk.injEq] at hadd
            obtain ⟨hq', _⟩ := hadd
            rw [← hq']
            show List.Sublist (keyInsert q.pending i) _
            unfold keyInsert
            split
            · exact List.sublist_append_left _ _
            · exact List.Sublist.refl _
  | dispatch r =>
      show List.Sublist _ (q.pending ++ [])
      rw [List.append_nil]
      simp only [applyOp, dispatch_step]
      cases hg : get_pending_task q with
      | none => exact List.Sublist.refl _
      | some task =>
          cases r with
          | noBackend => exact List.Sublist.refl _
          | accepted b pid =>
              show List.Sublist (q.pending.erase task.id) q.pending
              exact List.erase_sublist _ _
          | failed b e =>
              show List.Sublist
                ((mark_failed cfg q task e).pending.erase task.id) q.pending
              by_cases hret : task.retries + 1 < cfg.max_retries
              · have hmf_p : (mark_failed cfg q task e).pending =
                    keyInsert q.pending task.id := by
                  unfold mark_failed
                  simp [hret]
                rw [hmf_p]
                exact keyInsert_erase_sublist _ _
              · have hmf_p : (mark_failed cfg q task e).pending = q.pending := by
                  unfold mark_failed
                  simp [hret]
                rw [hmf_p]
                exact List.erase_sublist _ _
  | complete i s e =>
      show List.Sublist _ (q.pending ++ [])
      rw [List.append_nil, applyOp, mark_completed_pending]
  | cancel i =>
      show List.Sublist _ (q.pending ++ [])
      rw [List.append_nil]
      simp only [applyOp]
      unfold cancel_task
      split
      · split
        · exact List.erase_sublist _ _
        · exact List.erase_sublist _ _
      · split
        · split
          · exact List.Sublist.refl _
          · exact List.Sublist.refl _
        · exact List.Sublist.refl _

theorem enqIds_cons (op : QOp) (rest : List QOp) :
    enqIds (op :: rest) = enqIds [op] ++ enqIds rest := by
  cases op <;> rfl

/-- The pending index after a run is a sublist of the ids enqueued by the
run, appended to the initial pending index. -/
theorem runOps_pending_sublist (cfg : QueueConfig) :
    ∀ (ops : List QOp) (q : TaskQueue),
      List.Sublist (runOps cfg q ops).pending (q.pending ++ enqIds ops) := by
  intro ops
  induction ops with
  | nil =>
      intro q
      simp [runOps, enqIds]
  | cons op rest ih =>
      intro q
      have h1 := ih (applyOp cfg q op)
      have h2 := (pending_applyOp_sublist cfg q op).append_right (enqIds rest)
      rw [enqIds_cons, ← List.append_assoc]
      exact h1.trans h2

/-- C5 amended: (1) FIFO — after any run from the empty queue the pending
index is an order-preserving sublist of the ids in enqueue order, so the
head (what `get_pending_task` peeks and `pop_pending_task` pops) is always
the earliest-enqueued job still pending; (2) an id can leave pending only by
being cancelled (ending CANCELLED), or as the head job of a dispatch-loop
iteration — ending DISPATCHED on success, and on upstream failure ending
either terminal FAILED or, per the retry slip of C1, QUEUED yet dropped. -/
theorem pending_fifo_and_removal (cfg : QueueConfig) :
    (∀ ops : List QOp,
       List.Sublist (runOps cfg emptyTaskQueue ops).pending (enqIds ops)) ∧
    (∀ (q : TaskQueue) (op : QOp) (id : String),
       heapConsistent q → (dget q.tasks id).isSome →
       id ∈ q.pending → id ∉ (applyOp cfg q op).pending →
       pendingRemovalReason cfg q op id) := by
  constructor
  · intro ops
    have h := runOps_pending_sublist cfg ops emptyTaskQueue
    simpa [emptyTaskQueue] using h
  · intro q op id hHC hsome hmem hout
    cases op with
    | enqueue i c x =>
        exfalso
        apply hout
        simp only [applyOp]
        cases hadd : add_task cfg q i c x with
        | error msg => exact hmem
        | ok r =>
            unfold add_task at hadd
            split at hadd
            · exact absurd hadd (by simp)
            · obtain ⟨q', t⟩ := r
              simp only [Except.ok.injEq, Prod.mk.injEq] at hadd
              obtain ⟨hq', _⟩ := hadd
              rw [← hq']
              exact mem_keyInsert_of_mem hmem
    | complete i s e =>
        exfalso
        apply hout
        show id ∈ (mark_completed q i s e).pending
        rw [mark_completed_pending]
        exact hmem
    | cancel i =>
        simp only [applyOp] at hout
        unfold pendingRemovalReason
        by_cases hi : i ∈ q.pending
        · cases hti : dget q.tasks i with
          | some task =>
              have hpend : ((cancel_task q i).2).pending = q.pending.erase i := by
                unfold cancel_task
                simp [hi, hti]
              have hid : id = i := by
                refine eq_of_not_mem_erase hmem ?_
                rw [← hpend]
                exact hout
              subst hid
              refine ⟨rfl, ?_⟩
              have htasks : ((cancel_task q id).2).tasks =
                  dset q.tasks id { task with status := .cancelled } := by
                unfold cancel_task
                simp [hi, hti]
              show statusOf (cancel_task q id).2 id = some .cancelled
              unfold statusOf
              rw [htasks, dget_dset_self]
              rfl
          | none =>
              exfalso
              have hpend : ((cancel_task q i).2).pending = q.pending.erase i := by
                unfold cancel_task
                simp [hi, hti]
              have hid : id = i := by
                refine eq_of_not_mem_erase hmem ?_
                rw [← hpend]
                exact hout
              rw [hid, hti] at hsome
              exact absurd hsome (by simp)
        · exfalso
          apply hout
          have : ((cancel_task q i).2).pending = q.pending := by
            unfold cancel_task
            rw [if_neg hi]
            split
            · split <;> rfl
            · rfl
          rw [this]
          exact hmem
    | dispatch r =>
        cases hpend : q.pending with
        | nil => rw [hpend] at hmem; exact absurd hmem (by simp)
        | cons h rest =>
            have hg0 : get_pending_task q = dget q.tasks h := by
              unfold get_pending_task
              rw [hpend]
              rfl
            cases hh : dget q.tasks h with
            | none =>
                exfalso
                apply hout
                simp only [applyOp, dispatch_step]
                rw [hg0, hh]
                exact hmem
            | some task =>
                have htid : task.id = h := hHC.id_eq hh
                have hstep : applyOp cfg q (.dispatch r) =
                    (let sr := dispatch_task cfg q task r
                     if sr.1 then
                       { sr.2 with pending := sr.2.pending.erase task.id }
                     else sr.2) := by
                  simp only [applyOp, dispatch_step]
                  rw [hg0, hh]
                unfold pendingRemovalReason
                cases r with
                | noBackend =>
                    exfalso
                    apply hout
                    rw [hstep]
                    exact hmem
                | accepted b pid =>
                    have hres_p :
                        (applyOp cfg q (.dispatch (.accepted b pid))).pending =
                          q.pending.erase task.id := by
                      rw [hstep]
                      rfl
                    have hres_t :
                        (applyOp cfg q (.dispatch (.accepted b pid))).tasks =
                          dset q.tasks task.id
                            { task with status := .dispatched,
                                        backend_name := some b,
                                        prompt_id := pid } := by
                      rw [hstep]
                      rfl
                    have hid : id = task.id := by
                      apply eq_of_not_mem_erase hmem
                      rw [← hres_p]
                      exact hout
                    refine ⟨?_, ?_⟩
                    · rw [hpend, hid, htid]
                      rfl
                    · show statusOf _ id = some .dispatched
                      unfold statusOf
                      rw [hres_t, hid, dget_dset_self]
                      rfl
                | failed b e =>
                    have hres_p :
                        (applyOp cfg q (.dispatch (.failed b e))).pending =
                          (mark_failed cfg q task e).pending.erase task.id := by
                      rw [hstep]
                      rfl
                    have hres_t :
                        (applyOp cfg q (.dispatch (.failed b e))).tasks =
                          (mark_failed cfg q task e).tasks := by
                      rw [hstep]
                      rfl
                    by_cases hret : task.retries + 1 < cfg.max_retries
                    · have hmf_p : (mark_failed cfg q task e).pending =
                          keyInsert q.pending task.id := by
                        unfold mark_failed
                        simp [hret]
                      have hmf_t : (mark_failed cfg q task e).tasks =
                          dset q.tasks task.id
                            { task with retries := task.retries + 1,
                                        error := some e, status := .queued,
                                        backend_name := none,
                                        prompt_id := none } := by
                        unfold mark_failed
                        simp [hret]
                      have hid : id = task.id := by
                        apply eq_of_not_mem_erase (mem_keyInsert_of_mem hmem)
                        rw [← hmf_p, ← hres_p]
                        exact hout
                      refine ⟨?_, Or.inl ?_⟩
                      · rw [hpend, hid, htid]
                        rfl
                      · show statusOf _ id = some .queued
                        unfold statusOf
                        rw [hres_t, hmf_t, hid, dget_dset_self]
                        rfl
                    · have hmf_p : (mark_failed cfg q task e).pending =
                          q.pending := by
                        unfold mark_failed
                        simp [hret]
                      have hmf_t : (mark_failed cfg q task e).tasks =
                          dset q.tasks task.id
                            { task with retries := task.retries + 1,
                                        error := some e,
                                        status := .failed } := by
                        unfold mark_failed
                        simp [hret]
                      have hid : id = task.id := by
                        apply eq_of_not_mem_erase hmem
                        rw [← hmf_p, ← hres_p]
                        exact hout
                      refine ⟨?_, Or.inr ?_⟩
                      · rw [hpend, hid, htid]
                        rfl
                      · show statusOf _ id = some .failed
                        unfold statusOf
                        rw [hres_t, hmf_t, hid, dget_dset_self]
                        rfl

/-- C5 amended witness: a concrete two-enqueue run whose pending index is a
sublist of the enqueue order, and a concrete cancellation removing pending
job "a" for the stated reason. -/
theorem pending_fifo_and_removal_witness :
    List.Sublist (runOps defaultQueueConfig emptyTaskQueue
        [QOp.enqueue "a" none none, QOp.enqueue "b" none none]).pending
      (enqIds [QOp.enqueue "a" none none, QOp.enqueue "b" none none]) ∧
    pendingRemovalReason defaultQueueConfig
      (runOps defaultQueueConfig emptyTaskQueue
        [QOp.enqueue "a" none none, QOp.enqueue "b" none none])
      (QOp.cancel "a") "a" :=
  ⟨(pending_fifo_and_removal defaultQueueConfig).1
      [QOp.enqueue "a" none none, QOp.enqueue "b" none none],
   (pending_fifo_and_removal defaultQueueConfig).2
      (runOps defaultQueueConfig emptyTaskQueue
        [QOp.enqueue "a" none none, QOp.enqueue "b" none none])
      (QOp.cancel "a") "a" (by decide) (by decide) (by decide) (by decide)⟩

theorem mark_completed_tasks_dget_ne (q : TaskQueue) (i : String) (s : Bool)
    (e : Option String) (id : String) (hne : i ≠ id) :
    dget (mark_completed q i s e).tasks id = dget q.tasks id := by
  unfold mark_completed
  split
  · split
    · exact dget_dset_ne hne
    · rfl
  · rfl

theorem cancel_task_tasks_dget_ne (q : TaskQueue) (i id : String)
    (hne : i ≠ id) :
    dget ((cancel_task q i).2).tasks id = dget q.tasks id := by
  unfold cancel_task
  split
  · split
    · exact dget_dset_ne hne
    · rfl
  · split
    · split
      · exact dget_dset_ne hne
      · rfl
    · rfl

theorem mark_failed_tasks_dget_ne (cfg : QueueConfig) (q : TaskQueue)
    (task : Task) (e : String) (id : String) (hne : task.id ≠ id) :
    dget (mark_failed cfg q task e).tasks id = dget q.tasks id := by
  by_cases hret : task.retries + 1 < cfg.max_retries
  · have h : (mark_failed cfg q task e).tasks = dset q.tasks task.id
        { task with retries := task.retries + 1, error := some e,
                    status := .queued, backend_name := none,
                    prompt_id := none } := by
      unfold mark_failed
      simp [hret]
    rw [h]
    exact dget_dset_ne hne
  · have h : (mark_failed cfg q task e).tasks = dset q.tasks task.id
        { task with retries := task.retries + 1, error := some e,
                    status := .failed } := by
      unfold mark_failed
      simp [hret]
    rw [h]
    exact dget_dset_ne hne

/-- C8 amended: once a job's id sits in the terminal index and in neither
live index, no queue operation ever touches its stored record again — in
particular its terminal status is assigned exactly once.  The exception the
counterexample exhibits is a job cancelled while DISPATCHED: it stays in the
dispatched index, so a later cancel or mark-completed re-assigns a terminal
status over CANCELLED. -/
theorem terminal_indexed_task_immutable
    (cfg : QueueConfig) (q : TaskQueue) (op : QOp) (id : String)
    (hHC : heapConsistent q) (hfresh : opFresh q op)
    (hsome : (dget q.tasks id).isSome)
    (hC : id ∈ q.completed) (hP : id ∉ q.pending) (hD : id ∉ q.dispatched) :
    dget (applyOp cfg q op).tasks id = dget q.tasks id := by
  cases op with
  | enqueue i c x =>
      have hi : dget q.tasks i = none := hfresh
      have hne : i ≠ id := by
        intro hcon
        rw [hcon] at hi
        rw [hi] at hsome
        exact absurd hsome (by simp)
      simp only [applyOp]
      cases hadd : add_task cfg q i c x with
      | error msg => rfl
      | ok r =>
          unfold add_task at hadd
          split at hadd
          · exact absurd hadd (by simp)
          · obtain ⟨q', t⟩ := r
            simp only [Except.ok.injEq, Prod.mk.injEq] at hadd
            obtain ⟨hq', _⟩ := hadd
            rw [← hq']
            exact dget_dset_ne hne
  | complete i s e =>
      simp only [applyOp]
      by_cases hne : i = id
      · subst hne
        unfold mark_completed
        rw [if_neg hD]
      · exact mark_completed_tasks_dget_ne q i s e id hne
  | cancel i =>
      simp only [applyOp]
      by_cases hne : i = id
      · subst hne
        unfold cancel_task
        rw [if_neg hP, if_neg hD]
      · exact cancel_task_tasks_dget_ne q i id hne
  | dispatch r =>
      simp only [applyOp, dispatch_step]
      cases hpend : q.pending with
      | nil =>
          have hg : get_pending_task q = none := by
            unfold get_pending_task
            rw [hpend]
            rfl
          rw [hg]
      | cons h rest =>
          have hg0 : get_pending_task q = dget q.tasks h := by
            unfold get_pending_task
            rw [hpend]
            rfl
          cases hh : dget q.tasks h with
          | none => rw [hg0, hh]
          | some task =>
              rw [hg0, hh]
              have htid : task.id = h := hHC.id_eq hh
              have hne : task.id ≠ id := by
                rw [htid]
                intro hcon
                apply hP
                rw [hpend, hcon]
                exact List.mem_cons_self _ _
              cases r with
              | noBackend => rfl
              | accepted b pid => exact dget_dset_ne hne
              | failed b e =>
                  show dget (mark_failed cfg q task e).tasks id =
                    dget q.tasks id
                  exact mark_failed_tasks_dget_ne cfg q task e id hne

/-- C8 amended witness: job "x" completed and recorded terminal; a later
cancel of "x" leaves its record untouched. -/
theorem terminal_indexed_task_immutable_witness :
    dget (applyOp defaultQueueConfig
        (runOps defaultQueueConfig emptyTaskQueue
          [.enqueue "x" (some "c1") none, .dispatch (.accepted "w1" (some "Y")),
           .complete "x" true none])
        (QOp.cancel "x")).tasks "x" =
      dget (runOps defaultQueueConfig emptyTaskQueue
        [.enqueue "x" (some "c1") none, .dispatch (.accepted "w1" (some "Y")),
         .complete "x" true none]).tasks "x" :=
  terminal_indexed_task_immutable defaultQueueConfig
    (runOps defaultQueueConfig emptyTaskQueue
      [.enqueue "x" (some "c1") none, .dispatch (.accepted "w1" (some "Y")),
       .complete "x" true none])
    (QOp.cancel "x") "x" (by decide) (by decide) (by decide) (by decide)
    (by decide) (by decide)

/-- C8 counterexample: a job can be assigned a terminal status twice.
Cancelling a dispatched job sets CANCELLED but leaves it in `_dispatched`
(task_queue.py:146-151), so a later `mark_completed` finds it there and
re-assigns terminal COMPLETED over terminal CANCELLED. -/
theorem cancelled_dispatched_task_reassigned_terminal :
    (statusOf (runOps defaultQueueConfig emptyTaskQueue
        [.enqueue "x" (some "c1") none, .dispatch (.accepted "w1" (some "Y")),
         .cancel "x"]) "x" = some .cancelled) ∧
    (statusOf (mark_completed (runOps defaultQueueConfig emptyTaskQueue
        [.enqueue "x" (some "c1") none, .dispatch (.accepted "w1" (some "Y")),
         .cancel "x"]) "x" true none) "x" = some .completed) := by
  decide

/-! ## C9 — terminal index cap -/

/-- C9 counterexample: cancelling a pending job records it as terminal
without any eviction (`cancel_task` has no cap loop), so from a terminal
index at the 1000 cap the operation leaves 1001 entries — the claim's
"after every operation that records a job as terminal, the terminal index
holds at most 1000 jobs" fails for cancellation (and likewise for
`mark_failed`'s terminal branch). -/
theorem pending_cancel_overflows_terminal_index :
    (cappedQueue.completed.length ≤ 1000) ∧
    ((cancel_task cappedQueue "p").1 = true) ∧
    ("p" ∈ (cancel_task cappedQueue "p").2.completed) ∧
    ((cancel_task cappedQueue "p").2.completed.length = 1001) := by
  decide

/-- C9 amended: the 1000-entry oldest-first eviction is enforced only by
`mark_completed`: after it the terminal index holds at most 1000 entries and
the evicted entries are an oldest-first prefix (the result is a suffix,
`List.drop k`, of the index after insertion).  The other two
terminal-recording operations — cancellation of a pending job and
`mark_failed`'s final-failure branch — append to the terminal index without
evicting. -/
theorem terminal_cap_only_on_completion (cfg : QueueConfig) :
    (∀ (q : TaskQueue) (id : String) (s : Bool) (e : Option String),
       id ∈ q.dispatched → (dget q.tasks id).isSome →
       (mark_completed q id s e).completed.length ≤ 1000 ∧
       ∃ k, (mark_completed q id s e).completed =
         (keyInsert q.completed id).drop k) ∧
    (∀ (q : TaskQueue) (id : String),
       id ∈ q.pending → (dget q.tasks id).isSome →
       (cancel_task q id).2.completed = keyInsert q.completed id) ∧
    (∀ (q : TaskQueue) (t : Task) (err : String),
       cfg.max_retries ≤ t.retries + 1 →
       (mark_failed cfg q t err).completed = keyInsert q.completed t.id) := by
  refine ⟨?_, ?_, ?_⟩
  · intro q id s e hd hsome
    obtain ⟨t, ht⟩ := Option.isSome_iff_exists.mp hsome
    unfold mark_completed
    simp only [hd, ht, if_pos]
    exact ⟨evict_completed_length_le _, evict_completed_eq_drop _⟩
  · intro q id hp hsome
    obtain ⟨t, ht⟩ := Option.isSome_iff_exists.mp hsome
    unfold cancel_task
    simp [hp, ht]
  · intro q t err h
    unfold mark_failed
    have : ¬ (t.retries + 1 < cfg.max_retries) := by omega
    simp [this]

/-- C9 amended witness: the three branches at concrete inputs — completing
the single dispatched job of a one-job queue, cancelling the pending job of
`cappedQueue`, and a final dispatch failure with `retries + 1 = max_retries`. -/
theorem terminal_cap_only_on_completion_witness :
    ((mark_completed (runOps defaultQueueConfig emptyTaskQueue
        [.enqueue "x" (some "c1") none, .dispatch (.accepted "w1" (some "Y"))])
      "x" true none).completed.length ≤ 1000 ∧
     ∃ k, (mark_completed (runOps defaultQueueConfig emptyTaskQueue
        [.enqueue "x" (some "c1") none, .dispatch (.accepted "w1" (some "Y"))])
      "x" true none).completed =
       (keyInsert (runOps defaultQueueConfig emptyTaskQueue
        [.enqueue "x" (some "c1") none, .dispatch (.accepted "w1" (some "Y"))]).completed
         "x").drop k) ∧
    ((cancel_task cappedQueue "p").2.completed =
      keyInsert cappedQueue.completed "p") ∧
    ((mark_failed defaultQueueConfig emptyTaskQueue
        { id := "z", client_id := none, status := .queued, backend_name := none,
          prompt_id := none, error := none, retries := 2,
          extra_data := none } "err").completed =
      keyInsert emptyTaskQueue.completed "z") :=
  ⟨(terminal_cap_only_on_completion defaultQueueConfig).1
      (runOps defaultQueueConfig emptyTaskQueue
        [.enqueue "x" (some "c1") none, .dispatch (.accepted "w1" (some "Y"))])
      "x" true none (by decide) (by decide),
   (terminal_cap_only_on_completion defaultQueueConfig).2.1
      cappedQueue "p" (by decide) (by decide),
   (terminal_cap_only_on_completion defaultQueueConfig).2.2
      emptyTaskQueue
      { id := "z", client_id := none, status := .queued, backend_name := none,
        prompt_id := none, error := none, retries := 2, extra_data := none }
      "err" (by decide)⟩

/-! ## C3 — worker frame identifier translation -/

/-- C3: for every worker text frame carrying a `prompt_id` that the balancer
has registered (via `register_prompt`: owning client `c`, balancer task id
`x`), provided the owner is not the bridge's own identity, the bridge
resolves the owner as target and delivers the frame to it with the nested
`prompt_id` replaced by the balancer task id, the `sid` field (when present)
replaced by the owner's client id, the `_backend` tag set to the worker
name, and the message type and remaining payload fields untouched. -/
theorem registered_prompt_frame_translation
    (w : String) (m : WSManager) (f : BackendFrame) (pid c x : String)
    (hpid : f.d.prompt_id = some pid)
    (hc : dget m.prompt_clients pid = some c)
    (hx : dget m.prompt_lb_ids pid = some x)
    (hb : c ≠ bridge_id w) :
    ∃ f' : BackendFrame,
      (handle_text_message w m f).1 = .sendTo c f' ∧
      f'.d.prompt_id = some x ∧
      (f.d.sid.isSome → f'.d.sid = some c) ∧
      (f.d.sid = none → f'.d.sid = none) ∧
      f'.backend_tag = some w ∧
      f'.mtype = f.mtype ∧
      f'.d.rest = f.d.rest ∧
      (handle_text_message w m f).2 =
        associate_client_with_backend m c w := by
  obtain ⟨mt, ⟨dpid, dsid, drest⟩, tpid, tsid, btag⟩ := f
  have hpid' : dpid = some pid := hpid
  subst hpid'
  cases dsid with
  | some s =>
      refine ⟨{ mtype := mt,
                d := { prompt_id := some x, sid := some c, rest := drest },
                top_prompt_id := tpid, top_sid := tsid,
                backend_tag := some w }, ?_, ?_, ?_, ?_, ?_, ?_, ?_, ?_⟩ <;>
        simp [handle_text_message, hc, hx, hb]
  | none =>
      cases tsid with
      | some ts =>
          refine ⟨{ mtype := mt,
                    d := { prompt_id := some x, sid := none, rest := drest },
                    top_prompt_id := tpid, top_sid := some c,
                    backend_tag := some w }, ?_, ?_, ?_, ?_, ?_, ?_, ?_, ?_⟩ <;>
            simp [handle_text_message, hc, hx, hb]
      | none =>
          refine ⟨{ mtype := mt,
                    d := { prompt_id := some x, sid := none, rest := drest },
                    top_prompt_id := tpid, top_sid := none,
                    backend_tag := some w }, ?_, ?_, ?_, ?_, ?_, ?_, ?_, ?_⟩ <;>
            simp [handle_text_message, hc, hx, hb]

/-- C3 witness: spec scenario 5 — the progress frame for workerJobId "Y"
from worker "w1" is delivered to "c1" with `prompt_id` rewritten to "X",
`sid` rewritten to "c1" and `_backend` set to "w1". -/
theorem registered_prompt_frame_translation_witness :
    ∃ f' : BackendFrame,
      (handle_text_message "w1" scenarioManager scenarioFrame).1 =
        .sendTo "c1" f' ∧
      f'.d.prompt_id = some "X" ∧
      (scenarioFrame.d.sid.isSome → f'.d.sid = some "c1") ∧
      (scenarioFrame.d.sid = none → f'.d.sid = none) ∧
      f'.backend_tag = some "w1" ∧
      f'.mtype = scenarioFrame.mtype ∧
      f'.d.rest = scenarioFrame.d.rest ∧
      (handle_text_message "w1" scenarioManager scenarioFrame).2 =
        associate_client_with_backend scenarioManager "c1" "w1" :=
  registered_prompt_frame_translation "w1" scenarioManager scenarioFrame
    "Y" "c1" "X" (by decide) (by decide) (by decide) (by decide)

/-! ## C6 — probe snapshot and hysteresis thresholds -/

/-- C6: after a probe success the worker's counters equal the lengths of the
probed `queue_running`/`queue_pending` arrays (the snapshot replaces the
counters), consecutive successes increment while failures reset (and
dually on failure), the worker becomes HEALTHY once consecutive successes
reach `healthy_threshold`, and after at least `unhealthy_threshold`
consecutive probe failures (at least one) the worker is UNHEALTHY. -/
theorem probe_counters_and_thresholds
    (cfg : HealthCheckConfig) (b : BackendState) (qr qp : List Unit)
    (n : Nat) (hn : cfg.unhealthy_threshold ≤ n) (h1 : 1 ≤ n) :
    ((check_backend_health cfg b (.success qr qp)).queue_running = qr.length ∧
     (check_backend_health cfg b (.success qr qp)).queue_pending = qp.length ∧
     (check_backend_health cfg b (.success qr qp)).consecutive_successes =
       b.consecutive_successes + 1 ∧
     (check_backend_health cfg b (.success qr qp)).consecutive_failures = 0) ∧
    (cfg.healthy_threshold ≤ b.consecutive_successes + 1 →
       (check_backend_health cfg b (.success qr qp)).status = .healthy) ∧
    ((check_backend_health cfg b .failure).consecutive_failures =
       b.consecutive_failures + 1 ∧
     (check_backend_health cfg b .failure).consecutive_successes = 0) ∧
    (probeFailures cfg b n).status = .unhealthy := by
  refine ⟨?_, ?_, ?_, ?_⟩
  · simp only [check_backend_health]
    split <;> exact ⟨rfl, rfl, rfl, rfl⟩
  · intro h
    simp only [check_backend_health]
    split
    · rfl
    · next hcond => exact absurd h hcond
  · constructor
    · exact check_failure_consecutive cfg b
    · simp only [check_backend_health]
      split <;> rfl
  · obtain ⟨k, rfl⟩ : ∃ k, n = k + 1 := ⟨n - 1, by omega⟩
    show (check_backend_health cfg (probeFailures cfg b k) .failure).status
      = .unhealthy
    apply check_failure_status
    rw [probeFailures_consecutive]
    omega

/-- C6 witness: default thresholds, fresh worker; one successful probe with
2 running and 1 pending entries, and 3 consecutive failures. -/
theorem probe_counters_and_thresholds_witness :
    (((check_backend_health defaultHealthConfig freshBackend
        (.success [(), ()] [()])).queue_running = 2 ∧
      (check_backend_health defaultHealthConfig freshBackend
        (.success [(), ()] [()])).queue_pending = 1 ∧
      (check_backend_health defaultHealthConfig freshBackend
        (.success [(), ()] [()])).consecutive_successes =
        freshBackend.consecutive_successes + 1 ∧
      (check_backend_health defaultHealthConfig freshBackend
        (.success [(), ()] [()])).consecutive_failures = 0) ∧
     (defaultHealthConfig.healthy_threshold ≤
        freshBackend.consecutive_successes + 1 →
        (check_backend_health defaultHealthConfig freshBackend
          (.success [(), ()] [()])).status = .healthy) ∧
     ((check_backend_health defaultHealthConfig freshBackend
         .failure).consecutive_failures =
        freshBackend.consecutive_failures + 1 ∧
      (check_backend_health defaultHealthConfig freshBackend
         .failure).consecutive_successes = 0) ∧
     (probeFailures defaultHealthConfig freshBackend 3).status = .unhealthy) :=
  probe_counters_and_thresholds defaultHealthConfig freshBackend
    [(), ()] [()] 3 (by decide) (by decide)

/-! ## C7 — enqueue rejection and POST /prompt response -/

/-- C7: `add_task` rejects with the queue-full `ValueError` exactly when the
pending index size has already reached `queue.max_size`, in which case
POST /prompt surfaces 503 and the queue is left unchanged; otherwise the job
is appended at the tail of the pending index and the response carries its id
and its recorded number. -/
theorem enqueue_queue_full_iff_and_response
    (cfg : QueueConfig) (q : TaskQueue) (freshId : String) (body : PromptBody)
    (hp : body.prompt.isSome) (hfresh : freshId ∉ q.pending) :
    (cfg.max_size ≤ q.pending.length →
       add_task cfg q freshId body.client_id body.extra_data =
         .error "队列已满" ∧
       submit_prompt cfg q freshId body = .error 503 ∧
       applyOp cfg q (.enqueue freshId body.client_id body.extra_data) = q) ∧
    (q.pending.length < cfg.max_size →
       ∃ q' t, add_task cfg q freshId body.client_id body.extra_data =
           .ok (q', t) ∧
         t.id = freshId ∧ t.status = .queued ∧
         q'.pending = q.pending ++ [freshId] ∧
         q'.dispatched = q.dispatched ∧ q'.completed = q.completed ∧
         submit_prompt cfg q freshId body = .ok (q', freshId,
           (t.extra_data.map (fun e => e.number.getD 0)).getD 0)) := by
  obtain ⟨p, hp⟩ := Option.isSome_iff_exists.mp hp
  constructor
  · intro hfull
    have hadd : add_task cfg q freshId body.client_id body.extra_data =
        .error "队列已满" := by
      unfold add_task
      simp [hfull]
    refine ⟨hadd, ?_, ?_⟩
    · unfold submit_prompt
      rw [hp, hadd]
    · simp only [applyOp]
      rw [hadd]
  · intro hlt
    have hnot : ¬ (cfg.max_size ≤ q.pending.length) := by omega
    have hadd : add_task cfg q freshId body.client_id body.extra_data =
        .ok ({ q with task_counter := q.task_counter + 1,
                      pending := keyInsert q.pending freshId,
                      tasks := dset q.tasks freshId
                        { id := freshId, client_id := body.client_id,
                          status := .queued, backend_name := none,
                          prompt_id := none, error := none, retries := 0,
                          extra_data := some (body.extra_data.getD
                            { number := some (q.task_counter + 1) }) },
                      dispatch_event := true },
              { id := freshId, client_id := body.client_id, status := .queued,
                backend_name := none, prompt_id := none, error := none,
                retries := 0,
                extra_data := some (body.extra_data.getD
                  { number := some (q.task_counter + 1) }) }) := by
      unfold add_task
      simp [hnot]
    refine ⟨_, _, hadd, rfl, rfl, ?_, rfl, rfl, ?_⟩
    · show keyInsert q.pending freshId = q.pending ++ [freshId]
      unfold keyInsert
      simp [hfresh]
    · unfold submit_prompt
      rw [hp, hadd]

/-- C7 witness: the enqueue behaviour at two concrete queues — the empty
queue (accepts; response id "a", number 1) and a full queue with
`max_size = 1` (rejects with 503, state unchanged). -/
theorem enqueue_queue_full_iff_and_response_witness :
    (({ max_size := 1, max_retries := 3 } : QueueConfig).max_size ≤
        (runOps { max_size := 1, max_retries := 3 } emptyTaskQueue
          [.enqueue "a" none none]).pending.length →
      add_task { max_size := 1, max_retries := 3 }
          (runOps { max_size := 1, max_retries := 3 } emptyTaskQueue
            [.enqueue "a" none none]) "b" none none = .error "队列已满" ∧
      submit_prompt { max_size := 1, max_retries := 3 }
          (runOps { max_size := 1, max_retries := 3 } emptyTaskQueue
            [.enqueue "a" none none])
          "b" { prompt := some 7, client_id := none, extra_data := none } =
        .error 503 ∧
      applyOp { max_size := 1, max_retries := 3 }
          (runOps { max_size := 1, max_retries := 3 } emptyTaskQueue
            [.enqueue "a" none none]) (.enqueue "b" none none) =
        runOps { max_size := 1, max_retries := 3 } emptyTaskQueue
          [.enqueue "a" none none]) ∧
    (emptyTaskQueue.pending.length <
        ({ max_size := 1, max_retries := 3 } : QueueConfig).max_size →
      ∃ q' t, add_task { max_size := 1, max_retries := 3 } emptyTaskQueue
          "a" none none = .ok (q', t) ∧
        t.id = "a" ∧ t.status = .queued ∧
        q'.pending = emptyTaskQueue.pending ++ ["a"] ∧
        q'.dispatched = emptyTaskQueue.dispatched ∧
        q'.completed = emptyTaskQueue.completed ∧
        submit_prompt { max_size := 1, max_retries := 3 } emptyTaskQueue "a"
            { prompt := some 7, client_id := none, extra_data := none } =
          .ok (q', "a", (t.extra_data.map (fun e => e.number.getD 0)).getD 0)) :=
  ⟨(enqueue_queue_full_iff_and_response { max_size := 1, max_retries := 3 }
      (runOps { max_size := 1, max_retries := 3 } emptyTaskQueue
        [.enqueue "a" none none])
      "b" { prompt := some 7, client_id := none, extra_data := none }
      (by decide) (by decide)).1,
   (enqueue_queue_full_iff_and_response { max_size := 1, max_retries := 3 }
      emptyTaskQueue "a"
      { prompt := some 7, client_id := none, extra_data := none }
      (by decide) (by decide)).2⟩

/-! ## C10 — cancellation of a terminal task -/

/-- C10: for a task recorded in the terminal index (and no longer pending or
dispatched), `cancel_task` returns `False` leaving the queue unchanged,
DELETE /lb/tasks/:id answers 404 (issuing no upstream cancel), while
GET /lb/tasks/:id still returns the task. -/
theorem terminal_task_cancel_refused
    (q : TaskQueue) (task_id : String) (t : Task)
    (hC : task_id ∈ q.completed) (hP : task_id ∉ q.pending)
    (hD : task_id ∉ q.dispatched) (ht : dget q.tasks task_id = some t) :
    cancel_task q task_id = (false, q) ∧
    delete_lb_task q task_id = (.error 404, []) ∧
    get_task q task_id = some t ∧
    get_lb_task q task_id = .ok t := by
  have hcancel : cancel_task q task_id = (false, q) := by
    unfold cancel_task
    simp [hP, hD]
  have hget : get_task q task_id = some t := by
    unfold get_task
    simp [hP, hD, hC, ht]
  refine ⟨hcancel, ?_, hget, ?_⟩
  · unfold delete_lb_task
    rw [hcancel]
    simp
  · unfold get_lb_task
    rw [hget]

/-- C10 witness: the queue after enqueue → dispatch → completion of job "x";
its id sits in the terminal index, cancellation is refused with 404 and the
task is still readable. -/
theorem terminal_task_cancel_refused_witness :
    cancel_task (runOps defaultQueueConfig emptyTaskQueue
        [.enqueue "x" (some "c1") none, .dispatch (.accepted "w1" (some "Y")),
         .complete "x" true none]) "x" =
      (false, runOps defaultQueueConfig emptyTaskQueue
        [.enqueue "x" (some "c1") none, .dispatch (.accepted "w1" (some "Y")),
         .complete "x" true none]) ∧
    delete_lb_task (runOps defaultQueueConfig emptyTaskQueue
        [.enqueue "x" (some "c1") none, .dispatch (.accepted "w1" (some "Y")),
         .complete "x" true none]) "x" = (.error 404, []) ∧
    get_task (runOps defaultQueueConfig emptyTaskQueue
        [.enqueue "x" (some "c1") none, .dispatch (.accepted "w1" (some "Y")),
         .complete "x" true none]) "x" =
      some { id := "x", client_id := some "c1", status := .completed,
             backend_name := some "w1", prompt_id := some "Y", error := none,
             retries := 0, extra_data := some { number := some 1 } } ∧
    get_lb_task (runOps defaultQueueConfig emptyTaskQueue
        [.enqueue "x" (some "c1") none, .dispatch (.accepted "w1" (some "Y")),
         .complete "x" true none]) "x" =
      .ok { id := "x", client_id := some "c1", status := .completed,
            backend_name := some "w1", prompt_id := some "Y", error := none,
            retries := 0, extra_data := some { number := some 1 } } :=
  terminal_task_cancel_refused
    (runOps defaultQueueConfig emptyTaskQueue
      [.enqueue "x" (some "c1") none, .dispatch (.accepted "w1" (some "Y")),
       .complete "x" true none])
    "x"
    { id := "x", client_id := some "c1", status := .completed,
      backend_name := some "w1", prompt_id := some "Y", error := none,
      retries := 0, extra_data := some { number := some 1 } }
    (by decide) (by decide) (by decide) (by decide)

end ComfyLB
